import Mathlib

/-!
Verification of the query-mind backend's safe query-generation pipeline.

Shallow embedding of:
- `app/services/query_executor.py` (`execute_query`): modelled as a function of
  the database driver's behaviour (connect / SET statement_timeout / execute
  outcomes, wall-clock durations), returning the result together with the
  sequence of resource-management steps taken (engine creation and disposal,
  connection open and close), mirroring the `try`/`finally` and
  `async with engine.connect()` structure of the source.
- `app/services/sql_validator.py` (`validate_sql`): the string processing
  (strip, comment-refusal detection, word-boundary blocklist scan, the
  `FROM`/`JOIN` table-extraction regex, quote-stripping, schema-prefix
  splitting, lower-casing, set difference, sorting) is embedded directly over
  `List Char`.  The third-party `sqlparse` library is external to the
  repository; its observable output used by the code (the list of parsed
  statements, each reduced to its upper-cased keyword-token list as computed
  by `_extract_keywords`) is a parameter `parse` of the embedded function,
  instantiated with concrete oracles recording sqlparse's actual output on
  the concrete inputs used in witnesses.
- `app/api/endpoints/query.py` (`_pipeline`): the SSE event stream is
  modelled as the list of emitted events, parameterised by the streamed SQL
  fragments, the retrieved table names, and the executor's outcome, together
  with a flag recording whether the executor was invoked.

Python string primitives (`str.strip`, `str.lstrip`, `str.upper`,
`str.lower`, `str.splitlines`, `re` word boundaries, `\s`, `\w`) are modelled
over their ASCII behaviour, which covers every string manipulated by these
claims.
-/

/-! # Definitions -/

/-! ## Character classes (ASCII models of Python `\w`, `\s`, line breaks) -/

/-- Python regex `\w` (ASCII): letters, digits and underscore. -/
def isWordChar (c : Char) : Bool := c.isAlphanum || c = '_'

/-- Python regex `\s` / `str.strip` whitespace (ASCII):
space, tab, newline, carriage return, vertical tab, form feed. -/
def isPySpace (c : Char) : Bool :=
  c = ' ' || c = '\t' || c = '\n' || c = '\r' || c = '\x0b' || c = '\x0c'

/-- Characters at which Python `str.splitlines` breaks a line (ASCII part). -/
def isLineBreak (c : Char) : Bool :=
  c = '\n' || c = '\r' || c = '\x0b' || c = '\x0c' || c = '\x1c' ||
  c = '\x1d' || c = '\x1e'

/-- Characters admitted by the table-name capture group `[\w".]` of the
extraction regex in `validate_sql`. -/
def isGroupChar (c : Char) : Bool := isWordChar c || c = '"' || c = '.'

/-! ## Python string primitives over `List Char` -/

/-- Python `str.lstrip()` (no argument): drop leading whitespace. -/
def pyLStrip (cs : List Char) : List Char := cs.dropWhile isPySpace

/-- Python `str.rstrip()` (no argument): drop trailing whitespace. -/
def pyRStrip (cs : List Char) : List Char :=
  (cs.reverse.dropWhile isPySpace).reverse

/-- Python `str.strip()` (no argument): drop whitespace at both ends. -/
def pyStrip (cs : List Char) : List Char := pyRStrip (pyLStrip cs)

/-- Python `str.upper()` (ASCII). -/
def upperChars (cs : List Char) : List Char := cs.map Char.toUpper

/-- Python `str.lower()` (ASCII). -/
def lowerChars (cs : List Char) : List Char := cs.map Char.toLower

/-- Python `str.lower()` as a `String` operation. -/
def pyLower (s : String) : String := String.mk (lowerChars s.data)

/-- Boolean test that `l` starts with the pattern `p` (exact characters). -/
def listStartsWith : List Char → List Char → Bool
  | [], _ => true
  | _ :: _, [] => false
  | k :: ks, c :: cs => k = c && listStartsWith ks cs

/-! ## Word-boundary search (Python `re.search(rf"\b{keyword}\b", s)`)

For a keyword consisting solely of word characters, `\b{kw}\b` matches
somewhere in `s` iff `s` contains `kw` at a position whose neighbouring
characters (where present) are non-word characters. -/

/-- Is an optional neighbouring character a word boundary?  `none` means the
edge of the string, which is always a boundary. -/
def boundB : Option Char → Bool
  | none => true
  | some c => !isWordChar c

/-- Scan of `s` for a word-boundary occurrence of `kw`; `prev` is the
character immediately before the current position (`none` at the start). -/
def containsWAux (kw : List Char) : Option Char → List Char → Bool
  | _, [] => false
  | prev, c :: cs =>
    (boundB prev && listStartsWith kw (c :: cs) &&
      boundB ((c :: cs).drop kw.length).head?) ||
    containsWAux kw (some c) cs

/-- `re.search(rf"\b{kw}\b", s) is not None` for an all-word-character
keyword `kw`. -/
def containsW (kw s : List Char) : Bool := containsWAux kw none s

/-- Specification-level statement of a standalone (word-boundary delimited)
occurrence of `kw` in `s`. -/
def StandaloneOcc (kw s : List Char) : Prop :=
  ∃ pre post, s = pre ++ (kw ++ post) ∧
    boundB pre.getLast? = true ∧ boundB post.head? = true

/-! ## The blocklist (`_BLOCKLIST` in `sql_validator.py`)

The source stores the keywords in a `frozenset` and iterates it; iteration
order of a `frozenset` is unspecified, so which keyword is named when
several match is implementation-defined.  The embedding uses the source's
textual order; no claim depends on which matching keyword is reported. -/

/-- The denylisted mutating / DDL / privilege keywords. -/
def BLOCKLIST : List String :=
  ["DROP", "DELETE", "INSERT", "UPDATE", "ALTER", "TRUNCATE", "CREATE",
   "REPLACE", "MERGE", "GRANT", "REVOKE", "EXEC", "EXECUTE", "CALL",
   "COPY", "VACUUM", "ANALYZE"]

/-- The blocklist pass of `validate_sql` (lines 78-86): search the
upper-cased stripped SQL for each keyword with word boundaries, returning
the first keyword that matches. -/
def blocklistHit (cs : List Char) : Option String :=
  BLOCKLIST.find? (fun kw => containsW kw.data (upperChars cs))

/-! ## The rejection messages of `validate_sql` -/

/-- Message for a comment-refusal input (line 75); `reason` is the first
line with leading `'-'`/`' '` characters and surrounding whitespace
removed. -/
def refusalMsg (reason : List Char) : String :=
  String.mk
    (("The AI could not generate a query for that question: ").data ++
      reason)

/-- Message for a blocklist hit (line 85). -/
def forbiddenMsg (kw : String) : String :=
  String.mk
    (("Forbidden keyword detected: ").data ++
      (kw.data ++ (". Only SELECT queries are allowed.").data))

/-- Message for a non-SELECT leading keyword (line 104). -/
def gotMsg (kws : List String) : String :=
  String.mk
    (("Only SELECT statements are allowed. Got: ").data ++
      (kws.headD ("unknown")).data)

/-- Python `sorted` comparison on strings: lexicographic by code point. -/
def strLeChars : List Char → List Char → Bool
  | [], _ => true
  | _ :: _, [] => false
  | a :: as, b :: bs => if a = b then strLeChars as bs else decide (a < b)

/-- Python `sorted` comparison lifted to `String`. -/
def pyStrLe (a b : String) : Bool := strLeChars a.data b.data

/-- Insert into a sorted list (ascending by `pyStrLe`). -/
def insertStr (x : String) : List String → List String
  | [] => [x]
  | y :: ys => if pyStrLe x y then x :: y :: ys else y :: insertStr x ys

/-- Python `sorted` on a list of strings. -/
def sortStrings : List String → List String
  | [] => []
  | x :: xs => insertStr x (sortStrings xs)

/-- Message for unknown referenced tables (line 125):
`"Query references unknown table(s): " + ", ".join(sorted(unknown))`. -/
def unknownMsg (ts : List String) : String :=
  String.mk
    (("Query references unknown table(s): ").data ++
      (String.intercalate (", ") (sortStrings ts)).data)

/-- The reason surfaced for a comment-refusal input:
`sql.splitlines()[0].lstrip('- ').strip()` (the stripped SQL is nonempty
here, so `splitlines()[0]` is the longest line-break-free prefix). -/
def refusalReasonOf (cs : List Char) : List Char :=
  pyStrip
    ((cs.takeWhile (fun c => !isLineBreak c)).dropWhile
      (fun c => c = '-' || c = ' '))

/-! ## The table-extraction regex of `validate_sql` (lines 111-119)

`re.compile(r"\bFROM\s+([\w\".]+)|\bJOIN\s+([\w\".]+)", re.IGNORECASE)`
applied with `finditer` over the stripped SQL.  `finditer` scans positions
left to right, tries the left alternation branch first, and resumes after
the end of each match.  The character classes `\s` and `[\w".]` are
disjoint, so greedy matching is maximal munch with no backtracking. -/

/-- Case-insensitive literal match of an (upper-case) keyword at the head
of `s`; returns the rest of `s` on success. -/
def matchKw : List Char → List Char → Option (List Char)
  | [], s => some s
  | _ :: _, [] => none
  | k :: ks, c :: cs => if c.toUpper = k then matchKw ks cs else none

/-- One alternation branch `{kw}\s+([\w".]+)` (the leading `\b` is checked
by the caller): returns the captured group and the remainder of the input
after the match. -/
def tryBranch (kw : List Char) (s : List Char) : Option (List Char × List Char) :=
  match matchKw kw s with
  | none => none
  | some afterKw =>
    match afterKw with
    | [] => none
    | a :: _ =>
      if !isPySpace a then none
      else
        match (afterKw.dropWhile isPySpace).takeWhile isGroupChar with
        | [] => none
        | g :: gs =>
          some (g :: gs, ((afterKw.dropWhile isPySpace).dropWhile isGroupChar))

/-- Attempt the full pattern at the current position; `prev` is the
character before the position (for `\b`; the first pattern character is a
word character, so the boundary holds iff `prev` is absent or non-word). -/
def tryMatch (prev : Option Char) (s : List Char) : Option (List Char × List Char) :=
  if boundB prev then
    match tryBranch (("FROM").data) s with
    | some r => some r
    | none => tryBranch (("JOIN").data) s
  else none

/-- `finditer` scan.  `fuel` bounds the recursion; every step consumes at
least one character of `s`, so `fuel = s.length` (as used by `scanTables`)
never runs out before the input does. -/
def scanAux (fuel : Nat) (prev : Option Char) (s : List Char) : List (List Char) :=
  match fuel, s with
  | 0, _ => []
  | _, [] => []
  | f + 1, c :: cs =>
    match tryMatch prev (c :: cs) with
    | some (grp, rest) => grp :: scanAux f grp.getLast? rest
    | none => scanAux f (some c) cs

/-- All captured table-name groups of the extraction regex, in match
order. -/
def scanTables (cs : List Char) : List (List Char) :=
  scanAux cs.length none cs

/-- Python `str.strip('"')`: drop leading and trailing double quotes. -/
def stripQuotes (g : List Char) : List Char :=
  ((g.dropWhile (fun c => c = '"')).reverse.dropWhile
    (fun c => c = '"')).reverse

/-- Python `s.split(".")[-1]`: the suffix after the last `'.'` (all of `s`
when no `'.'` occurs). -/
def lastDotComponent (l : List Char) : List Char :=
  (l.reverse.takeWhile (fun c => !(c = '.'))).reverse

/-- Per-match post-processing (line 116-118):
`(match.group(1) or match.group(2)).strip('"').lower()` followed by
`table.split(".")[-1]`. -/
def processTable (g : List Char) : String :=
  String.mk (lastDotComponent (lowerChars (stripQuotes g)))

/-- The set `referenced` of line 114-119, as a duplicate-free list. -/
def referencedTables (cs : List Char) : List String :=
  ((scanTables cs).map processTable).dedup

/-- The set difference `referenced - known_lower` of line 121, where
`known_lower = {t.lower() for t in known_tables}`. -/
def unknownTables (cs : List Char) (kts : List String) : List String :=
  (referencedTables cs).filter (fun t => !((kts.map pyLower).contains t))

/-! ## `validate_sql` (`sql_validator.py`, lines 54-128) -/

/-- `ValidationResult` dataclass from `sql_validator.py`. -/
structure ValidationResult where
  is_valid : Bool
  error : Option String := none
deriving DecidableEq, Repr

/-- Step 3 of `validate_sql` (lines 107-128): the optional allow-list
check.  `if known_tables:` is false both for `None` and for an empty
list. -/
def tableCheck (cs : List Char) : Option (List String) → ValidationResult
  | none => ⟨true, none⟩
  | some kts =>
    if kts.isEmpty then ⟨true, none⟩
    else if (unknownTables cs kts).isEmpty then ⟨true, none⟩
    else ⟨false, some (unknownMsg (unknownTables cs kts))⟩

/-- Shallow embedding of `validate_sql`.  `parse` is the sqlparse oracle:
for the (stripped) SQL it yields the parsed statements, each as the
upper-cased keyword-token list computed by `_extract_keywords`. -/
def validate_sql (parse : String → List (List String)) (sql : String)
    (known_tables : Option (List String)) : ValidationResult :=
  if (pyStrip sql.data).isEmpty then ⟨false, some ("Empty SQL query")⟩
  else if listStartsWith (("--").data) (pyStrip sql.data) then
    ⟨false, some (refusalMsg (refusalReasonOf (pyStrip sql.data)))⟩
  else
    match blocklistHit (pyStrip sql.data) with
    | some kw => ⟨false, some (forbiddenMsg kw)⟩
    | none =>
      match parse (String.mk (pyStrip sql.data)) with
      | [] => ⟨false, some ("Could not parse SQL")⟩
      | [kws] =>
        if kws.head? = some ("SELECT") then
          tableCheck (pyStrip sql.data) known_tables
        else ⟨false, some (gotMsg kws)⟩
      | _ :: _ :: _ =>
        ⟨false, some ("Multiple statements are not allowed")⟩

/-- Keyword-token oracle for sqlparse on a single `SELECT ... FROM ...`
statement (its flattened keyword tokens are the DML token `SELECT` and the
keyword token `FROM`), as used by the concrete inputs of the witnesses. -/
def sqlparseSelectFrom : String → List (List String) :=
  fun _ => [["SELECT", "FROM"]]

/-! ## The SSE pipeline (`app/api/endpoints/query.py`, `_pipeline`) -/

/-- The wire events of the pipeline (docstring of `run_query`). -/
inductive Event (α : Type) where
  | status (message : String)
  | sql_chunk (chunk : String)
  | results (columns : List String) (rows : List (List α))
      (exec_time_ms : Nat) (row_count : Nat)
  | done
  | error (message : String)
deriving DecidableEq, Repr

/-- One observed pipeline run: the emitted events and whether
`execute_query` was invoked. -/
structure PipelineRun (α : Type) where
  events : List (Event α)
  executorCalled : Bool
deriving DecidableEq, Repr

/-- `QueryResult` view used by the pipeline's results event. -/
structure ExecPayload (α : Type) where
  columns : List String
  rows : List (List α)
  exec_time_ms : Nat
  row_count : Nat
deriving DecidableEq, Repr

/-- The events `_pipeline` emits before the validation outcome is known:
the two leading status events, one `sql_chunk` event per streamed fragment,
and the validating status event. -/
def preEvents {α : Type} (chunks : List String) : List (Event α) :=
  [Event.status ("Retrieving schema context..."),
   Event.status ("Generating SQL...")] ++
  chunks.map Event.sql_chunk ++
  [Event.status ("Validating SQL...")]

/-- Shallow embedding of `_pipeline` (lines 61-116) for runs in which
schema retrieval and SQL streaming succeed: `chunks` are the streamed
fragments (accumulated by concatenation into `generated_sql` and then
stripped), `known_tables` the retrieved table names, and `exec` the
outcome `execute_query` would produce (`Except.error` carries `str(exc)`
of a raised exception, which the orchestrator converts into the error
event).  The `finally:` block only dispatches the fire-and-forget audit
write, which emits no events. -/
def runPipeline {α : Type} (parse : String → List (List String))
    (chunks : List String) (known_tables : List String)
    (exec : Except String (ExecPayload α)) : PipelineRun α :=
  if (validate_sql parse (String.mk (pyStrip (String.join chunks).data))
      (some known_tables)).is_valid then
    match exec with
    | .error e =>
        ⟨preEvents chunks ++
          [Event.status ("Executing query..."), Event.error e], true⟩
    | .ok r =>
        ⟨preEvents chunks ++ [Event.status ("Executing query..."),
          Event.results r.columns r.rows r.exec_time_ms r.row_count,
          Event.done], true⟩
  else
    ⟨preEvents chunks ++
      [Event.error
        ((validate_sql parse (String.mk (pyStrip (String.join chunks).data))
          (some known_tables)).error.getD (""))], false⟩

/-! ## Sandboxed query executor (`app/services/query_executor.py`)

`execute_query` decrypts and normalises the connection string, creates a
fresh engine, and inside `try: async with engine.connect() as conn:` runs
`SET statement_timeout`, times `conn.execute(text(sql))` with
`time.perf_counter()` readings taken immediately before and immediately
after that call, then reads `result.keys()` and `result.fetchmany(MAX_ROWS)`
(after the timing readings), and in `finally:` always runs
`engine.dispose()`.  The driver (SQLAlchemy + asyncpg + PostgreSQL) is
external: its behaviour on one call is a `DBBehavior` value.  Durations are
in nanoseconds; `int((t1 - t0) * 1000)` on `perf_counter` seconds is
modelled as integer division of the nanosecond span by 1 000 000. -/

/-- `MAX_ROWS` from `query_executor.py`. -/
def MAX_ROWS : Nat := 500

/-- `STATEMENT_TIMEOUT_MS` from `query_executor.py`. -/
def STATEMENT_TIMEOUT_MS : Nat := 10000

/-- An error surfaced by the database connectivity layer.  PostgreSQL
classifies statement-timeout expiry separately (SQLSTATE 57014, asyncpg
`QueryCanceledError`, message naming the statement timeout) from other
driver errors; the executor itself never catches or re-wraps these. -/
inductive DBError where
  | statementTimeout (msg : String)
  | driver (msg : String)
deriving DecidableEq, Repr

/-- The result set the driver hands back for a successful statement:
`result.keys()` and the full sequence of rows the query produced. -/
structure DriverResult (α : Type) where
  keys : List String
  allRows : List (List α)
deriving DecidableEq, Repr

/-- The behaviour of the external database layer during one
`execute_query` call. -/
structure DBBehavior (α : Type) where
  /-- Outcome of `engine.connect()`. -/
  connect : Except DBError Unit
  /-- Outcome of `SET statement_timeout = 10000`. -/
  setTimeout : Except DBError Unit
  /-- Outcome of `conn.execute(text(sql))`. -/
  run : Except DBError (DriverResult α)
  /-- Wall-clock nanoseconds consumed by `conn.execute(text(sql))`. -/
  execDurNs : Nat
  /-- Wall-clock nanoseconds consumed by `result.fetchmany(MAX_ROWS)`. -/
  fetchDurNs : Nat

/-- `QueryResult` dataclass from `query_executor.py`. -/
structure QueryResult (α : Type) where
  columns : List String
  rows : List (List α)
  exec_time_ms : Nat
  row_count : Nat
deriving DecidableEq, Repr

/-- Resource-management steps taken during one `execute_query` call, in
order. -/
inductive ExecStep where
  | engineCreated
  | connOpened
  | timeoutSet
  | statementExecuted
  | connClosed
  | engineDisposed
deriving DecidableEq, Repr

/-- What one `execute_query` call produces: the returned value or the
propagated error, plus the ordered resource trace. -/
structure ExecOutcome (α : Type) where
  result : Except DBError (QueryResult α)
  trace : List ExecStep

/-- Shallow embedding of `execute_query` (`query_executor.py`, lines 29-72).
The `async with` block closes the connection when it is exited on any path,
and the `finally` block disposes the engine on any path; the trace records
these steps in their execution order.  `rows = [list(row) for row in
result.fetchmany(MAX_ROWS)]` materialises at most `MAX_ROWS` rows, each
already a positional list; `elapsed_ms` is computed from the two
`perf_counter` readings that bracket `conn.execute` alone. -/
def execute_query {α : Type} (b : DBBehavior α) : ExecOutcome α :=
  match b.connect with
  | .error e =>
      ⟨.error e, [.engineCreated, .engineDisposed]⟩
  | .ok _ =>
    match b.setTimeout with
    | .error e =>
        ⟨.error e, [.engineCreated, .connOpened, .connClosed, .engineDisposed]⟩
    | .ok _ =>
      match b.run with
      | .error e =>
          ⟨.error e,
           [.engineCreated, .connOpened, .timeoutSet, .connClosed,
            .engineDisposed]⟩
      | .ok dr =>
          ⟨.ok ⟨dr.keys, dr.allRows.take MAX_ROWS, b.execDurNs / 1000000,
                (dr.allRows.take MAX_ROWS).length⟩,
           [.engineCreated, .connOpened, .timeoutSet, .statementExecuted,
            .connClosed, .engineDisposed]⟩

/-- Modelled from the spec: the wall-clock span in integer milliseconds
"from just before submitting the statement to just after the result set is
retrieved (cap-bounded fetch included)" — i.e. covering both the
`conn.execute` call and the `result.fetchmany(MAX_ROWS)` call. -/
def specExecSpanMs {α : Type} (b : DBBehavior α) : Nat :=
  (b.execDurNs + b.fetchDurNs) / 1000000

/-- Input for the C4 witness: a query producing 1000 rows of arity 1. -/
def behaviorManyRows : DBBehavior Int :=
  ⟨Except.ok (), Except.ok (),
   Except.ok ⟨["n"], List.replicate 1000 [0]⟩, 0, 0⟩

/-- Input for the C5 witness: the driver cancels the statement at the
statement timeout. -/
def behaviorTimedOut : DBBehavior Int :=
  ⟨Except.ok (), Except.ok (),
   Except.error
     (DBError.statementTimeout
       ("canceling statement due to statement timeout")), 0, 0⟩

/-- Input for the C6 counterexample: `conn.execute` takes 100 ms and
`result.fetchmany(MAX_ROWS)` takes a further 50 ms. -/
def behaviorSlowFetch : DBBehavior Int :=
  ⟨Except.ok (), Except.ok (), Except.ok ⟨["c"], [[1]]⟩,
   100000000, 50000000⟩

/-- Input for the C8 witness: a run that opens a connection and then fails
with a timeout. -/
def behaviorForDisposal : DBBehavior Int :=
  ⟨Except.ok (), Except.ok (),
   Except.error (DBError.statementTimeout ("timeout")), 7, 0⟩

/-! # Theorems -/

/-! ## Sanity checks of the embedded string machinery on concrete inputs -/

example : scanTables (("SELECT * FROM public.users").data) =
    [("public.users").data] := by decide

example : processTable (("\"public\".\"users\"").data) = "\"users" := by
  decide

example : processTable (("Public.Users").data) = "users" := by decide

example : containsW (("DELETE").data)
    (upperChars (("SELECT deleted_at FROM users").data)) = false := by decide

example : containsW (("DELETE").data)
    (upperChars (("delete from users").data)) = true := by decide

/-! ### Claim C4: result-shape invariants of `execute_query` -/

/-- C4: for every successful call to `execute_query`, the returned result
satisfies `row_count = rows.length`, `row_count ≤ 500` regardless of how
many rows the query produced, and — given that the driver hands back rows
whose arity matches `result.keys()` — every returned row has arity equal to
`columns.length`. -/
theorem c4_result_invariants {α : Type} (b : DBBehavior α)
    (dr : DriverResult α) (qr : QueryResult α)
    (hrun : b.run = Except.ok dr)
    (hres : (execute_query b).result = Except.ok qr) :
    qr.row_count = qr.rows.length ∧ qr.row_count ≤ MAX_ROWS ∧
      ((∀ r ∈ dr.allRows, r.length = dr.keys.length) →
        ∀ r ∈ qr.rows, r.length = qr.columns.length) := by
  unfold execute_query at hres
  rcases hc : b.connect with e | u <;> rw [hc] at hres
  · cases hres
  rcases ht : b.setTimeout with e | u' <;> rw [ht] at hres
  · cases hres
  rw [hrun] at hres
  cases hres
  refine ⟨rfl, ?_, ?_⟩
  · simp [List.length_take]
  · intro harity r hr
    exact harity r (List.mem_of_mem_take hr)

set_option maxRecDepth 20000 in
/-- Witness for C4: with 1000 available rows the materialised result has
`row_count = 500 = rows.length`, is capped at `MAX_ROWS`, and keeps the
arity of every row equal to the column count. -/
theorem c4_witness :
    (⟨["n"], List.replicate 500 [(0 : Int)], 0, 500⟩ :
        QueryResult Int).row_count =
      (⟨["n"], List.replicate 500 [(0 : Int)], 0, 500⟩ :
        QueryResult Int).rows.length ∧
    (⟨["n"], List.replicate 500 [(0 : Int)], 0, 500⟩ :
        QueryResult Int).row_count ≤ MAX_ROWS ∧
    ∀ r ∈ (⟨["n"], List.replicate 500 [(0 : Int)], 0, 500⟩ :
        QueryResult Int).rows,
      r.length =
        (⟨["n"], List.replicate 500 [(0 : Int)], 0, 500⟩ :
          QueryResult Int).columns.length := by
  have h := c4_result_invariants behaviorManyRows
    ⟨["n"], List.replicate 1000 [0]⟩
    ⟨["n"], List.replicate 500 [(0 : Int)], 0, 500⟩
    rfl (by rfl)
  refine ⟨h.1, h.2.1, h.2.2 ?_⟩
  intro r hr
  rw [List.eq_of_mem_replicate hr]
  rfl

/-! ### Claim C5: statement-timeout expiry surfaces as a classified error -/

/-- C5: the executor sets the fixed 10 000 ms statement timeout before the
query runs; when the driver reports statement-timeout expiry, the error
propagated by `execute_query` is exactly that timeout-classified error,
which is distinct (in kind) from every generic driver error.  The
classification itself is produced by the external driver (asyncpg
`QueryCanceledError` for SQLSTATE 57014); the executor propagates it
unchanged, with no `except` clause collapsing it into a generic failure. -/
theorem c5_timeout_classified {α : Type} (b : DBBehavior α) (m : String)
    (hc : b.connect = Except.ok ())
    (ht : b.setTimeout = Except.ok ())
    (hr : b.run = Except.error (DBError.statementTimeout m)) :
    (execute_query b).result = Except.error (DBError.statementTimeout m) ∧
    (∀ m', DBError.statementTimeout m ≠ DBError.driver m') ∧
    ExecStep.timeoutSet ∈ (execute_query b).trace ∧
    STATEMENT_TIMEOUT_MS = 10000 := by
  unfold execute_query
  rw [hc, ht, hr]
  refine ⟨rfl, fun m' h => DBError.noConfusion h, ?_, rfl⟩
  simp

/-- Witness for C5 at a concrete timed-out run. -/
theorem c5_witness :
    (execute_query behaviorTimedOut).result =
      Except.error
        (DBError.statementTimeout
          ("canceling statement due to statement timeout")) ∧
    DBError.statementTimeout
        ("canceling statement due to statement timeout") ≠
      DBError.driver ("connection refused") := by
  have h := c5_timeout_classified behaviorTimedOut
    ("canceling statement due to statement timeout") rfl rfl rfl
  exact ⟨h.1, h.2.1 ("connection refused")⟩

/-! ### Claim C6: what span `exec_time_ms` measures -/

/-- C6 counterexample: the claim says the measured span runs to just after
the result set is retrieved with the cap-bounded row fetch included, i.e.
that `exec_time_ms` equals `specExecSpanMs`.  On `behaviorSlowFetch` the
code reports 100 ms while the fetch-inclusive span is 150 ms: the second
`perf_counter` reading is taken immediately after `conn.execute` returns
(line 60), before `result.fetchmany(MAX_ROWS)` runs (line 63). -/
theorem c6_counterexample :
    (execute_query behaviorSlowFetch).result =
      Except.ok ⟨["c"], [[(1 : Int)]], 100, 1⟩ ∧
    specExecSpanMs behaviorSlowFetch = 150 ∧
    (100 : Nat) ≠ 150 := by
  refine ⟨rfl, rfl, by decide⟩

/-- C6 (amended): `exec_time_ms` measures the wall-clock span in integer
milliseconds from just before submitting the statement to just after
`conn.execute` returns; the cap-bounded row fetch happens after the second
timer reading and is not included in the measured span. -/
theorem c6_exec_time_measures_execute {α : Type} (b : DBBehavior α)
    (qr : QueryResult α)
    (hres : (execute_query b).result = Except.ok qr) :
    qr.exec_time_ms = b.execDurNs / 1000000 := by
  unfold execute_query at hres
  rcases hc : b.connect with e | u <;> rw [hc] at hres
  · cases hres
  rcases ht : b.setTimeout with e | u' <;> rw [ht] at hres
  · cases hres
  rcases hr : b.run with e | dr <;> rw [hr] at hres
  · cases hres
  cases hres
  rfl

/-- Witness for the amended C6 at the concrete slow-fetch run. -/
theorem c6_witness :
    (⟨["c"], [[(1 : Int)]], 100, 1⟩ : QueryResult Int).exec_time_ms =
      behaviorSlowFetch.execDurNs / 1000000 :=
  c6_exec_time_measures_execute behaviorSlowFetch
    ⟨["c"], [[(1 : Int)]], 100, 1⟩ rfl

/-! ### Claim C8: the engine/connection is released on every exit path -/

/-- C8: on every exit path of `execute_query` — connect failure, `SET`
failure, driver error or timeout during the statement, and normal return —
the last resource step is the engine disposal performed by `finally:`, and
whenever a connection was opened the `async with` block closed it. -/
theorem c8_always_disposed {α : Type} (b : DBBehavior α) :
    (execute_query b).trace.getLast? = some ExecStep.engineDisposed ∧
    (ExecStep.connOpened ∈ (execute_query b).trace →
      ExecStep.connClosed ∈ (execute_query b).trace) := by
  unfold execute_query
  rcases b.connect with e | u
  · exact ⟨rfl, by intro h; simp at h⟩
  rcases b.setTimeout with e | u'
  · exact ⟨rfl, by intro h; simp⟩
  rcases b.run with e | dr
  · exact ⟨rfl, by intro h; simp⟩
  · exact ⟨rfl, by intro h; simp⟩

/-- Witness for C8: on the concrete timed-out run the trace ends with the
engine disposal and the opened connection was closed. -/
theorem c8_witness :
    (execute_query behaviorForDisposal).trace.getLast? =
      some ExecStep.engineDisposed ∧
    ExecStep.connClosed ∈ (execute_query behaviorForDisposal).trace := by
  have h := c8_always_disposed behaviorForDisposal
  exact ⟨h.1, h.2 (by decide)⟩

/-! ## Helper lemmas about the embedded validator -/

/-- Two strings with distinct first characters are distinct. -/
theorem str_ne_of_head (s t : String) (c₁ c₂ : Char) (hc : ¬ c₁ = c₂)
    (hs : s.data.head? = some c₁) (ht : t.data.head? = some c₂) :
    ¬ s = t := by
  intro he
  subst he
  rw [hs] at ht
  exact hc (Option.some.inj ht)

/-- The first character of a message built from a nonempty fixed head. -/
theorem head_mk_append (a rest : List Char) (c : Char)
    (h : a.head? = some c) :
    (String.mk (a ++ rest)).data.head? = some c := by
  cases a with
  | nil => cases h
  | cons d tl => cases h; rfl

/-- When the structural phase of `validate_sql` accepts (witnessed by the
run with no allow-list being valid), the result for any allow-list argument
is decided by `tableCheck` on the stripped SQL. -/
theorem validate_sql_phase (parse : String → List (List String)) (s : String)
    (h : (validate_sql parse s none).is_valid = true)
    (kt : Option (List String)) :
    validate_sql parse s kt = tableCheck (pyStrip s.data) kt := by
  unfold validate_sql at h ⊢
  by_cases h1 : (pyStrip s.data).isEmpty = true
  · simp [h1] at h
  by_cases h2 : listStartsWith (("--").data) (pyStrip s.data) = true
  · simp [h1, h2] at h
  rcases hb : blocklistHit (pyStrip s.data) with _ | kw
  · rcases hp : parse (String.mk (pyStrip s.data)) with _ | ⟨kws, tl⟩
    · simp [h1, h2, hb, hp] at h
    rcases tl with _ | ⟨kws2, tl2⟩
    · by_cases hk : kws.head? = some ("SELECT")
      · simp [h1, h2, hb, hp, hk]
      · simp [h1, h2, hb, hp, hk] at h
    · simp [h1, h2, hb, hp] at h
  · simp [h1, h2, hb] at h

/-- `validate_sql` depends on its allow-list argument only through
`tableCheck`. -/
theorem validate_sql_kt_congr (parse : String → List (List String))
    (s : String) (kt₁ kt₂ : Option (List String))
    (ht : tableCheck (pyStrip s.data) kt₁ = tableCheck (pyStrip s.data) kt₂) :
    validate_sql parse s kt₁ = validate_sql parse s kt₂ := by
  unfold validate_sql
  by_cases h1 : (pyStrip s.data).isEmpty = true
  · simp [h1]
  by_cases h2 : listStartsWith (("--").data) (pyStrip s.data) = true
  · simp [h1, h2]
  rcases hb : blocklistHit (pyStrip s.data) with _ | kw
  · rcases hp : parse (String.mk (pyStrip s.data)) with _ | ⟨kws, tl⟩
    · simp [h1, h2, hb, hp]
    rcases tl with _ | ⟨kws2, tl2⟩
    · by_cases hk : kws.head? = some ("SELECT")
      · simp [h1, h2, hb, hp, hk, ht]
      · simp [h1, h2, hb, hp, hk]
    · simp [h1, h2, hb, hp]
  · simp [h1, h2, hb]

/-! ### Claim C7: the comment-refusal sentinel -/

/-- C7: every input whose stripped form begins with the comment marker is
rejected with the refusal message surfacing the stated reason, regardless
of anything else the input contains (in particular the refusal check runs
before the denylist check, so a refusal that mentions a denylisted word
still reports as a refusal); the refusal message is distinct from every
denylist message and from every unknown-table message. -/
theorem c7_refusal_sentinel :
    (∀ (parse : String → List (List String)) (sql : String)
        (kt : Option (List String)),
      listStartsWith (("--").data) (pyStrip sql.data) = true →
      validate_sql parse sql kt =
        ⟨false, some (refusalMsg (refusalReasonOf (pyStrip sql.data)))⟩) ∧
    (∀ r kw, refusalMsg r ≠ forbiddenMsg kw) ∧
    (∀ r ts, refusalMsg r ≠ unknownMsg ts) := by
  refine ⟨?_, ?_, ?_⟩
  · intro parse sql kt h
    have hne : (pyStrip sql.data).isEmpty = false := by
      rcases hcs : pyStrip sql.data with _ | ⟨c, cs⟩
      · rw [hcs] at h; simp [listStartsWith] at h
      · rfl
    unfold validate_sql
    simp [hne, h]
  · intro r kw
    exact str_ne_of_head _ _ 'T' 'F' (by decide)
      (head_mk_append _ _ _ (by decide)) (head_mk_append _ _ _ (by decide))
  · intro r ts
    exact str_ne_of_head _ _ 'T' 'Q' (by decide)
      (head_mk_append _ _ _ (by decide)) (head_mk_append _ _ _ (by decide))

/-- Witness for C7: a refusal sentinel that even mentions a denylisted
word is reported as a refusal (first-match-wins), with the stated reason
surfaced. -/
theorem c7_witness :
    validate_sql sqlparseSelectFrom
        ("-- Cannot answer: would need DELETE access") none =
      ⟨false, some (refusalMsg (refusalReasonOf
        (pyStrip ("-- Cannot answer: would need DELETE access").data)))⟩ ∧
    refusalMsg (refusalReasonOf
        (pyStrip ("-- Cannot answer: would need DELETE access").data)) =
      "The AI could not generate a query for that question: Cannot answer: would need DELETE access" := by
  constructor
  · exact c7_refusal_sentinel.1 sqlparseSelectFrom _ none (by decide)
  · decide

/-! ### Claim C9: an empty allow-list skips the table check -/

/-- C9: supplying an empty `known_tables` list behaves exactly as supplying
none (the `if known_tables:` guard is false for the empty list), and any
input passing the structural checks is accepted at the table-check step
under an empty allow-list. -/
theorem c9_empty_allowlist :
    (∀ (parse : String → List (List String)) (sql : String),
      validate_sql parse sql (some []) = validate_sql parse sql none) ∧
    (∀ (parse : String → List (List String)) (sql : String),
      (validate_sql parse sql none).is_valid = true →
      validate_sql parse sql (some []) = ⟨true, none⟩) := by
  constructor
  · intro parse sql
    exact validate_sql_kt_congr parse sql (some []) none rfl
  · intro parse sql h
    rw [validate_sql_phase parse sql h (some [])]
    rfl

/-- Witness for C9 at a concrete SELECT referencing a table, validated
against an empty allow-list. -/
theorem c9_witness :
    validate_sql sqlparseSelectFrom ("SELECT * FROM anything") (some []) =
      ⟨true, none⟩ ∧
    validate_sql sqlparseSelectFrom ("SELECT * FROM anything") (some []) =
      validate_sql sqlparseSelectFrom ("SELECT * FROM anything") none := by
  exact ⟨c9_empty_allowlist.2 sqlparseSelectFrom _ (by decide),
    c9_empty_allowlist.1 sqlparseSelectFrom _⟩

/-! ### Claim C10: quoted schema-qualified references keep a quote -/

/-- C10: for `FROM "public"."users"` the capture group is
`"public"."users"`; `strip('"')` removes only the outermost quotes before
the split on `'.'`, so the extracted name is `"users` (with an embedded
leading quote), which never equals the bare allow-listed name: the query is
rejected as referencing an unknown table even though `users` is
allow-listed. -/
theorem c10_quoted_schema_ref :
    processTable (("\"public\".\"users\"").data) = "\"users" ∧
    ("\"users" : String) ≠ "users" ∧
    validate_sql sqlparseSelectFrom
        ("SELECT * FROM \"public\".\"users\"") (some ["users"]) =
      ⟨false, some ("Query references unknown table(s): \"users")⟩ := by
  refine ⟨by decide, by decide, by decide⟩

/-- Boolean `List.contains` on strings agrees with membership. -/
theorem contains_iff_mem (l : List String) (t : String) :
    l.contains t = true ↔ t ∈ l := List.elem_iff

/-! ### Claim C2: a failed validation ends the run before the executor -/

/-- C2: in every pipeline run whose accumulated candidate SQL fails
validation, the emitted event sequence ends with the terminal error event
carrying the validation error, no event follows it, and `execute_query` is
never invoked. -/
theorem c2_validation_failure_terminal {α : Type}
    (parse : String → List (List String)) (chunks : List String)
    (kts : List String) (exec : Except String (ExecPayload α))
    (h : (validate_sql parse (String.mk (pyStrip (String.join chunks).data))
        (some kts)).is_valid = false) :
    (runPipeline parse chunks kts exec).events.getLast? =
      some (Event.error
        ((validate_sql parse (String.mk (pyStrip (String.join chunks).data))
            (some kts)).error.getD (""))) ∧
    (runPipeline parse chunks kts exec).executorCalled = false := by
  have h' : ¬ ((validate_sql parse
      (String.mk (pyStrip (String.join chunks).data))
      (some kts)).is_valid = true) := by
    rw [h]; exact Bool.false_ne_true
  unfold runPipeline
  rw [if_neg h']
  exact ⟨List.getLast?_concat _, rfl⟩

/-- Witness for C2: a streamed denylisted fragment (`"DELETE FROM users"`)
fails validation; the run ends with the terminal error event and the
executor flag stays false. -/
theorem c2_witness :
    (runPipeline (α := Int) sqlparseSelectFrom [("DELETE FROM users")]
        ["users"] (Except.ok ⟨[], [], 0, 0⟩)).events.getLast? =
      some (Event.error
        ((validate_sql sqlparseSelectFrom
            (String.mk (pyStrip (String.join [("DELETE FROM users")]).data))
            (some ["users"])).error.getD (""))) ∧
    (runPipeline (α := Int) sqlparseSelectFrom [("DELETE FROM users")]
        ["users"] (Except.ok ⟨[], [], 0, 0⟩)).executorCalled = false := by
  exact c2_validation_failure_terminal sqlparseSelectFrom _ _ _ (by decide)

/-! ### Claim C3: the allow-list check names exactly the unknown tables -/

/-- C3: for every statement passing the structural checks (witnessed by the
run with no allow-list being valid), validated against a non-empty
allow-list: if the extracted referenced tables include names outside the
(lower-cased) allow-list, validation rejects with the message naming
exactly the set of unknown referenced tables (sorted, comma-joined), where
a name is unknown iff it is referenced and not in the lower-cased
allow-list.  Concrete conjuncts: comparison is case-insensitive in both
directions, an unquoted schema-qualified `public.users` resolves to the
bare `users` before comparison, and a rejection names the bare unknown
name. -/
theorem c3_unknown_tables :
    (∀ (parse : String → List (List String)) (sql : String)
        (kts : List String),
      (validate_sql parse sql none).is_valid = true →
      kts ≠ [] →
      unknownTables (pyStrip sql.data) kts ≠ [] →
      validate_sql parse sql (some kts) =
        ⟨false, some (unknownMsg (unknownTables (pyStrip sql.data) kts))⟩ ∧
      (∀ t, t ∈ unknownTables (pyStrip sql.data) kts ↔
        (t ∈ referencedTables (pyStrip sql.data) ∧
          ¬ t ∈ kts.map pyLower))) ∧
    validate_sql sqlparseSelectFrom ("SELECT * FROM USERS")
      (some ["Users"]) = ⟨true, none⟩ ∧
    validate_sql sqlparseSelectFrom ("select * from users")
      (some ["USERS"]) = ⟨true, none⟩ ∧
    validate_sql sqlparseSelectFrom ("SELECT * FROM public.users")
      (some ["users"]) = ⟨true, none⟩ ∧
    validate_sql sqlparseSelectFrom ("SELECT * FROM public.orders")
      (some ["users"]) =
      ⟨false, some ("Query references unknown table(s): orders")⟩ := by
  refine ⟨?_, by decide, by decide, by decide, by decide⟩
  intro parse sql kts hvalid hne hunk
  constructor
  · rw [validate_sql_phase parse sql hvalid (some kts)]
    unfold tableCheck
    have h1 : kts.isEmpty = false := by
      cases kts with
      | nil => exact absurd rfl hne
      | cons a l => rfl
    have h2 : (unknownTables (pyStrip sql.data) kts).isEmpty = false := by
      cases hu : unknownTables (pyStrip sql.data) kts with
      | nil => exact absurd hu hunk
      | cons a l => rfl
    simp [h1, h2]
  · intro t
    unfold unknownTables
    rw [List.mem_filter]
    constructor
    · rintro ⟨h1, h2⟩
      rw [Bool.not_eq_true'] at h2
      refine ⟨h1, fun hm => ?_⟩
      rw [(contains_iff_mem _ _).mpr hm] at h2
      cases h2
    · rintro ⟨h1, h2⟩
      refine ⟨h1, ?_⟩
      rw [Bool.not_eq_true']
      cases hc : (kts.map pyLower).contains t
      · rfl
      · exact absurd ((contains_iff_mem _ _).mp hc) h2

/-- Witness for C3: `SELECT * FROM public.orders` against allow-list
`["users"]` is rejected with the message naming the unknown table. -/
theorem c3_witness :
    validate_sql sqlparseSelectFrom ("SELECT * FROM public.orders")
      (some ["users"]) =
      ⟨false, some (unknownMsg (unknownTables
        (pyStrip ("SELECT * FROM public.orders").data) ["users"]))⟩ :=
  (c3_unknown_tables.1 sqlparseSelectFrom _ _ (by decide) (by decide)
    (by decide)).1

/-! ## Word-boundary search: the boolean scan matches its specification -/

/-- `listStartsWith p l` holds exactly when `l` extends `p`. -/
theorem listStartsWith_iff : ∀ (p l : List Char),
    listStartsWith p l = true ↔ ∃ t, l = p ++ t := by
  intro p
  induction p with
  | nil =>
    intro l
    simp [listStartsWith]
  | cons k ks ih =>
    intro l
    cases l with
    | nil =>
      constructor
      · intro h; cases h
      · rintro ⟨t, ht⟩; cases ht
    | cons c cs =>
      constructor
      · intro h
        rcases (Bool.and_eq_true _ _).mp h with ⟨h1, h2⟩
        have hkc : k = c := of_decide_eq_true h1
        subst hkc
        rcases (ih cs).mp h2 with ⟨t, ht⟩
        exact ⟨t, by rw [ht]; rfl⟩
      · rintro ⟨t, ht⟩
        injection ht with h1 h2
        subst h1
        apply (Bool.and_eq_true _ _).mpr
        exact ⟨decide_eq_true rfl, (ih cs).mpr ⟨t, h2⟩⟩

/-- The scan `containsWAux` finds exactly the boundary-delimited
occurrences, where the boundary before an occurrence at the very start of
the remaining input is the carried `prev` character. -/
theorem containsWAux_iff (kw : List Char) (hne : kw ≠ []) :
    ∀ (s : List Char) (prev : Option Char),
      containsWAux kw prev s = true ↔
      ∃ pre post, s = pre ++ (kw ++ post) ∧
        boundB (pre.getLast?.or prev) = true ∧ boundB post.head? = true := by
  intro s
  induction s with
  | nil =>
    intro prev
    constructor
    · intro h; cases h
    · rintro ⟨pre, post, hs, _, _⟩
      rcases List.append_eq_nil.mp hs.symm with ⟨hpre, hrest⟩
      rcases List.append_eq_nil.mp hrest with ⟨hkw, _⟩
      exact absurd hkw hne
  | cons c cs ih =>
    intro prev
    constructor
    · intro h
      rcases (Bool.or_eq_true _ _).mp h with h | h
      · rcases (Bool.and_eq_true _ _).mp h with ⟨h12, h3⟩
        rcases (Bool.and_eq_true _ _).mp h12 with ⟨h1, h2⟩
        rcases (listStartsWith_iff kw (c :: cs)).mp h2 with ⟨t, ht⟩
        refine ⟨[], t, by rw [ht]; rfl, by simpa using h1, ?_⟩
        rw [ht, List.drop_left] at h3
        exact h3
      · rcases (ih (some c)).mp h with ⟨pre, post, hs, hb, hp⟩
        refine ⟨c :: pre, post, by rw [hs]; rfl, ?_, hp⟩
        cases pre with
        | nil => simpa using hb
        | cons d tl =>
          rw [List.getLast?_cons_cons]
          rcases hgl : (d :: tl).getLast? with _ | x
          · exact absurd hgl (by simp)
          · rw [hgl] at hb
            simpa using hb
    · rintro ⟨pre, post, hs, hb, hp⟩
      cases pre with
      | nil =>
        apply (Bool.or_eq_true _ _).mpr
        left
        have hsw : listStartsWith kw (c :: cs) = true :=
          (listStartsWith_iff kw (c :: cs)).mpr ⟨post, by simpa using hs⟩
        have h1 : boundB prev = true := by simpa using hb
        have h3 : boundB ((c :: cs).drop kw.length).head? = true := by
          rw [show (c :: cs) = kw ++ post by simpa using hs, List.drop_left]
          exact hp
        rw [h1, hsw, h3]
        rfl
      | cons d tl =>
        injection hs with hcd hcs
        subst hcd
        apply (Bool.or_eq_true _ _).mpr
        right
        apply (ih (some c)).mpr
        refine ⟨tl, post, hcs, ?_, hp⟩
        cases tl with
        | nil => simpa using hb
        | cons e tl2 =>
          rw [List.getLast?_cons_cons] at hb
          rcases hgl : (e :: tl2).getLast? with _ | x
          · exact absurd hgl (by simp)
          · rw [hgl] at hb
            simpa [hgl] using hb

/-- `containsW` decides `StandaloneOcc` for a nonempty keyword. -/
theorem containsW_iff (kw : List Char) (hne : kw ≠ []) (s : List Char) :
    containsW kw s = true ↔ StandaloneOcc kw s := by
  unfold containsW StandaloneOcc
  rw [containsWAux_iff kw hne s none]
  constructor
  · rintro ⟨pre, post, hs, hb, hp⟩
    exact ⟨pre, post, hs, by simpa using hb, hp⟩
  · rintro ⟨pre, post, hs, hb, hp⟩
    exact ⟨pre, post, hs, by simpa using hb, hp⟩

/-! ## Stripping whitespace preserves standalone keyword occurrences -/

/-- `str.upper` fixes whitespace characters. -/
theorem toUpper_space_fix (c : Char) (h : isPySpace c = true) :
    Char.toUpper c = c := by
  simp only [isPySpace, Bool.or_eq_true, decide_eq_true_eq] at h
  rcases h with ((((h | h) | h) | h) | h) | h <;> subst h <;> decide

/-- Whitespace characters are not word characters. -/
theorem space_not_word (c : Char) (h : isPySpace c = true) :
    isWordChar c = false := by
  simp only [isPySpace, Bool.or_eq_true, decide_eq_true_eq] at h
  rcases h with ((((h | h) | h) | h) | h) | h <;> subst h <;> decide

/-- Dropping a non-word leading character neither creates nor destroys a
standalone occurrence of a keyword that starts with a word character. -/
theorem socc_cons_drop (kw : List Char) (k : Char) (hk : kw.head? = some k)
    (hkw : isWordChar k = true) (d : Char) (hd : isWordChar d = false)
    (s : List Char) : StandaloneOcc kw (d :: s) ↔ StandaloneOcc kw s := by
  constructor
  · rintro ⟨pre, post, hs, hb, hp⟩
    cases pre with
    | nil =>
      exfalso
      cases kw with
      | nil => cases hk
      | cons k0 tl =>
        injection hk with hk0
        have hs' : d :: s = k0 :: (tl ++ post) := hs
        injection hs' with hd0 _
        rw [hd0, hk0] at hd
        rw [hkw] at hd
        cases hd
    | cons e pre' =>
      have hs' : d :: s = e :: (pre' ++ (kw ++ post)) := hs
      injection hs' with hde hs''
      refine ⟨pre', post, hs'', ?_, hp⟩
      cases pre' with
      | nil => rfl
      | cons f tl =>
        rw [List.getLast?_cons_cons] at hb
        exact hb
  · rintro ⟨pre, post, hs, hb, hp⟩
    refine ⟨d :: pre, post, by rw [hs]; rfl, ?_, hp⟩
    cases pre with
    | nil => simp [boundB, hd]
    | cons f tl =>
      rw [List.getLast?_cons_cons]
      exact hb

/-- A standalone occurrence reverses to a standalone occurrence of the
reversed keyword. -/
theorem socc_reverse (kw s : List Char) (h : StandaloneOcc kw s) :
    StandaloneOcc kw.reverse s.reverse := by
  rcases h with ⟨pre, post, hs, hb, hp⟩
  refine ⟨post.reverse, pre.reverse, ?_, ?_, ?_⟩
  · rw [hs]
    simp [List.reverse_append]
  · rw [List.getLast?_reverse]
    exact hp
  · rw [List.head?_reverse]
    exact hb

/-- Left-stripping whitespace preserves standalone occurrences of an
all-word-character keyword in the upper-cased string. -/
theorem socc_lstrip (kw : List Char) (hne : kw ≠ [])
    (hw : ∀ c ∈ kw, isWordChar c = true) (cs : List Char) :
    StandaloneOcc kw (upperChars cs) ↔
      StandaloneOcc kw (upperChars (pyLStrip cs)) := by
  induction cs with
  | nil => exact Iff.rfl
  | cons c cs ih =>
    by_cases hc : isPySpace c = true
    · have hstep : pyLStrip (c :: cs) = pyLStrip cs := by
        simp [pyLStrip, List.dropWhile, hc]
      rw [hstep]
      have hcu : isWordChar (Char.toUpper c) = false := by
        rw [toUpper_space_fix c hc]
        exact space_not_word c hc
      obtain ⟨k, hk⟩ : ∃ k, kw.head? = some k := by
        cases kw with
        | nil => exact absurd rfl hne
        | cons a l => exact ⟨a, rfl⟩
      have hkw : isWordChar k = true := by
        apply hw
        cases kw with
        | nil => cases hk
        | cons a l =>
          injection hk with hk0
          rw [← hk0]
          exact List.mem_cons_self a l
      have hcons : upperChars (c :: cs) = Char.toUpper c :: upperChars cs :=
        rfl
      rw [hcons, socc_cons_drop kw k hk hkw (Char.toUpper c) hcu]
      exact ih
    · have hstep : pyLStrip (c :: cs) = c :: cs := by
        simp [pyLStrip, List.dropWhile, hc]
      rw [hstep]

/-- Right-stripping whitespace preserves standalone occurrences of an
all-word-character keyword in the upper-cased string. -/
theorem socc_rstrip (kw : List Char) (hne : kw ≠ [])
    (hw : ∀ c ∈ kw, isWordChar c = true) (cs : List Char) :
    StandaloneOcc kw (upperChars cs) ↔
      StandaloneOcc kw (upperChars (pyRStrip cs)) := by
  have hner : kw.reverse ≠ [] := by
    intro h
    exact hne (by simpa using congrArg List.reverse h)
  have hwr : ∀ c ∈ kw.reverse, isWordChar c = true := fun c hc =>
    hw c (List.mem_reverse.mp hc)
  have hmapL : ∀ l : List Char, (upperChars l).reverse = upperChars l.reverse :=
    fun l => by simp [upperChars]
  constructor
  · intro h
    have h1 := socc_reverse _ _ h
    rw [hmapL cs] at h1
    have h2 := (socc_lstrip kw.reverse hner hwr cs.reverse).mp h1
    have h3 := socc_reverse _ _ h2
    rw [List.reverse_reverse] at h3
    rw [hmapL (pyLStrip cs.reverse)] at h3
    exact h3
  · intro h
    have h1 := socc_reverse _ _ h
    rw [show (upperChars (pyRStrip cs)).reverse =
        upperChars (pyLStrip cs.reverse) from by
      rw [hmapL (pyRStrip cs)]
      simp [pyRStrip, pyLStrip]] at h1
    have h2 := (socc_lstrip kw.reverse hner hwr cs.reverse).mpr h1
    have h3 := socc_reverse _ _ h2
    rw [List.reverse_reverse, hmapL cs.reverse, List.reverse_reverse] at h3
    exact h3

/-- Python `strip()` preserves standalone occurrences of an
all-word-character keyword in the upper-cased string, in both
directions. -/
theorem socc_strip (kw : List Char) (hne : kw ≠ [])
    (hw : ∀ c ∈ kw, isWordChar c = true) (cs : List Char) :
    StandaloneOcc kw (upperChars cs) ↔
      StandaloneOcc kw (upperChars (pyStrip cs)) := by
  rw [pyStrip]
  exact (socc_lstrip kw hne hw cs).trans
    (socc_rstrip kw hne hw (pyLStrip cs))

/-- Every blocklist keyword is nonempty and consists solely of word
characters. -/
theorem blocklist_facts :
    ∀ kw ∈ BLOCKLIST, kw.data ≠ [] ∧ ∀ c ∈ kw.data, isWordChar c = true := by
  decide

/-- The allow-list check never produces a denylist message. -/
theorem tableCheck_error_ne_forbidden (cs : List Char)
    (kt : Option (List String)) (kw : String) :
    (tableCheck cs kt).error ≠ some (forbiddenMsg kw) := by
  unfold tableCheck
  rcases kt with _ | kts
  · simp
  · by_cases h1 : kts.isEmpty = true
    · simp [h1]
    by_cases h2 : (unknownTables cs kts).isEmpty = true
    · simp [h1, h2]
    · simp only [h1, h2, if_false, Bool.false_eq_true]
      intro hc
      exact str_ne_of_head _ _ 'Q' 'F' (by decide)
        (head_mk_append _ _ _ (by decide))
        (head_mk_append _ _ _ (by decide)) (Option.some.inj hc)

/-! ### Claim C1: denylist rejection is word-boundary and case-insensitive -/

/-- C1: any input containing a denylisted keyword as a standalone
word-boundary-delimited word of its upper-cased text is rejected by
`validate_sql`; and when every denylisted keyword occurs at most as a
substring of a longer identifier (no standalone occurrence), the denylist
check finds nothing and the result of `validate_sql` is never a denylist
rejection. -/
theorem c1_denylist_word_boundary :
    (∀ (parse : String → List (List String)) (sql : String)
        (kt : Option (List String)),
      (∃ kw ∈ BLOCKLIST, StandaloneOcc kw.data (upperChars sql.data)) →
      (validate_sql parse sql kt).is_valid = false) ∧
    (∀ (parse : String → List (List String)) (sql : String)
        (kt : Option (List String)),
      (∀ kw ∈ BLOCKLIST, ¬ StandaloneOcc kw.data (upperChars sql.data)) →
      blocklistHit (pyStrip sql.data) = none ∧
      ∀ kw, (validate_sql parse sql kt).error ≠ some (forbiddenMsg kw)) := by
  constructor
  · rintro parse sql kt ⟨kw, hkw, hocc⟩
    have hbl := blocklist_facts kw hkw
    have hocc' : StandaloneOcc kw.data (upperChars (pyStrip sql.data)) :=
      (socc_strip kw.data hbl.1 hbl.2 sql.data).mp hocc
    unfold validate_sql
    by_cases h1 : (pyStrip sql.data).isEmpty = true
    · rw [if_pos h1]
    rw [if_neg h1]
    by_cases h2 : listStartsWith (("--").data) (pyStrip sql.data) = true
    · rw [if_pos h2]
    rw [if_neg h2]
    have hsome : (blocklistHit (pyStrip sql.data)).isSome := by
      unfold blocklistHit
      rw [List.find?_isSome]
      exact ⟨kw, hkw, (containsW_iff kw.data hbl.1 _).mpr hocc'⟩
    rcases hb : blocklistHit (pyStrip sql.data) with _ | kw'
    · rw [hb] at hsome
      cases hsome
    · rfl
  · intro parse sql kt hno
    have hnone : blocklistHit (pyStrip sql.data) = none := by
      unfold blocklistHit
      rw [List.find?_eq_none]
      intro kw hkw hcw
      have hbl := blocklist_facts kw hkw
      exact hno kw hkw ((socc_strip kw.data hbl.1 hbl.2 sql.data).mpr
        ((containsW_iff kw.data hbl.1 _).mp hcw))
    refine ⟨hnone, ?_⟩
    intro kw
    unfold validate_sql
    by_cases h1 : (pyStrip sql.data).isEmpty = true
    · rw [if_pos h1]
      intro hc
      exact str_ne_of_head _ _ 'E' 'F' (by decide) (by decide)
        (head_mk_append _ _ _ (by decide)) (Option.some.inj hc)
    rw [if_neg h1]
    by_cases h2 : listStartsWith (("--").data) (pyStrip sql.data) = true
    · rw [if_pos h2]
      intro hc
      exact str_ne_of_head _ _ 'T' 'F' (by decide)
        (head_mk_append _ _ _ (by decide))
        (head_mk_append _ _ _ (by decide)) (Option.some.inj hc)
    rw [if_neg h2]
    rw [hnone]
    rcases hp : parse (String.mk (pyStrip sql.data)) with _ | ⟨kws, tl⟩
    · intro hc
      exact str_ne_of_head _ _ 'C' 'F' (by decide) (by decide)
        (head_mk_append _ _ _ (by decide)) (Option.some.inj hc)
    rcases tl with _ | ⟨kws2, tl2⟩
    · dsimp only
      by_cases hk : kws.head? = some ("SELECT")
      · rw [if_pos hk]
        exact tableCheck_error_ne_forbidden (pyStrip sql.data) kt kw
      · rw [if_neg hk]
        intro hc
        exact str_ne_of_head _ _ 'O' 'F' (by decide)
          (head_mk_append _ _ _ (by decide))
          (head_mk_append _ _ _ (by decide)) (Option.some.inj hc)
    · intro hc
      exact str_ne_of_head _ _ 'M' 'F' (by decide) (by decide)
        (head_mk_append _ _ _ (by decide)) (Option.some.inj hc)

/-- Witness for C1: `DELETE FROM users` (standalone `DELETE`) is rejected,
while in `SELECT deleted_at FROM users` every denylisted keyword occurs
only inside the longer identifier `deleted_at`, and the denylist check
finds nothing. -/
theorem c1_witness :
    (validate_sql sqlparseSelectFrom ("DELETE FROM users") none).is_valid =
      false ∧
    blocklistHit (pyStrip ("SELECT deleted_at FROM users").data) = none := by
  constructor
  · apply c1_denylist_word_boundary.1 sqlparseSelectFrom _ none
    refine ⟨"DELETE", by decide, ?_⟩
    exact (containsW_iff (("DELETE").data) (by decide) _).mp (by decide)
  · refine (c1_denylist_word_boundary.2 sqlparseSelectFrom
      ("SELECT deleted_at FROM users") none ?_).1
    have hall : ∀ kw ∈ BLOCKLIST,
        containsW kw.data
          (upperChars (("SELECT deleted_at FROM users").data)) = false := by
      decide
    intro kw hkw hocc
    have hcw := (containsW_iff kw.data (blocklist_facts kw hkw).1 _).mpr hocc
    rw [hall kw hkw] at hcw
    cases hcw
